import Mathlib

/-!
Verification development for the Trading-System repository.

We shallowly embed the portfolio / order logic of the repository:
* the order-execution stub `executeOrder` and the rebalance order insert
  `executeRebalance` (component `PortfolioManagement`),
* the portfolio price-refresh endpoint (`POST /api/portfolio/update-prices`),
* the valuation aggregation of `LivePortfolioTracker.fetchPortfolioMetrics`,
* the strategy-generation endpoint's JSON-parsing fallback.

Numbers are modelled as rationals (`ℚ`); database rows as Lean structures;
a nullable column as `Option ℚ`; the randomly generated fill price and the
market close price as explicit parameters. Timestamp columns
(`created_at` / `updated_at`) carry no logic and are not modelled.
-/

/-- A row of the `portfolio_positions` table (timestamps omitted).
`current_price`, `market_value`, `unrealized_pnl` are nullable columns. -/
structure Position where
  agent_id : String
  symbol : String
  quantity : ℚ
  average_price : ℚ
  current_price : Option ℚ
  market_value : Option ℚ
  unrealized_pnl : Option ℚ
deriving DecidableEq, Repr

/-- Order side, from the `side` column (`"buy"` / `"sell"`). -/
inductive Side where
  | buy
  | sell
deriving DecidableEq, Repr

/-- A row of the orders table as written by the UI (timestamps omitted). -/
structure Order where
  agent_id : String
  symbol : String
  order_type : String
  side : Side
  quantity : ℚ
  price : Option ℚ
  status : String
deriving DecidableEq, Repr

/-- The database state touched by order execution: the orders table and the
`portfolio_positions` table. -/
structure DB where
  orders : List Order
  positions : List Position
deriving DecidableEq, Repr

/-- Outcome reported to the user by `executeOrder`: either the
"Missing Information" validation toast, or "Order Placed". -/
inductive OrderResult where
  | missingInfo
  | placed
deriving DecidableEq, Repr

/-- `const quantity = orderSide === "buy" ? parseInt(q) : -parseInt(q)`. -/
def signedQuantity : Side → ℚ → ℚ
  | Side.buy, q => q
  | Side.sell, q => -q

/-- The `.eq("agent_id", a).eq("symbol", s).single()` lookup of
`portfolio_positions`. -/
def findPosition (ps : List Position) (a s : String) : Option Position :=
  ps.find? fun p => p.agent_id == a && p.symbol == s

/-- The `.update(...).eq("id", existingPosition.id)` write: replace the row
that the lookup found (the first row matching agent and symbol). -/
def replaceFirst (ps : List Position) (a s : String) (p' : Position) : List Position :=
  match ps with
  | [] => []
  | p :: rest =>
    if p.agent_id == a && p.symbol == s then p' :: rest
    else p :: replaceFirst rest a s p'

/-- The existing-position branch of `executeOrder`:
`newQuantity = existing.quantity + quantity`;
`newAvgPrice = newQuantity === 0 ? 0
  : (existing.avg_price * existing.quantity + currentPrice * quantity) / newQuantity`;
the update writes `quantity`, `avg_price`, `current_price` and `updated_at`
only — the cached `market_value` / `unrealized_pnl` columns keep their old
values. -/
def updatePositionExec (p : Position) (currentPrice signedQty : ℚ) : Position :=
  let newQuantity := p.quantity + signedQty
  let newAvgPrice :=
    if newQuantity = 0 then 0
    else (p.average_price * p.quantity + currentPrice * signedQty) / newQuantity
  { p with
      quantity := newQuantity
      average_price := newAvgPrice
      current_price := some currentPrice }

/-- The no-existing-position branch of `executeOrder`: insert a fresh row with
`quantity = signedQty`, `avg_price = current_price = currentPrice`; the
`market_value` / `unrealized_pnl` columns are not in the insert, so they
default to NULL. -/
def newPositionExec (a s : String) (currentPrice signedQty : ℚ) : Position :=
  { agent_id := a
    symbol := s
    quantity := signedQty
    average_price := currentPrice
    current_price := some currentPrice
    market_value := none
    unrealized_pnl := none }

/-- `executeOrder` from `PortfolioManagement`. A JS-falsy (empty) quantity
field is modelled as `none`; `currentPrice` is the synthetic fill price
(`Math.random() * 1000 + 500` in the source) passed explicitly.
Validation: `if (!selectedAgent || !selectedSymbol || !orderQuantity)` show
the "Missing Information" toast and return with no database write. Otherwise
insert the order row with `status: "filled"`, then update or create the
position. -/
def executeOrder (db : DB) (selectedAgent selectedSymbol : String)
    (orderQuantity : Option ℚ) (orderType : String) (orderSide : Side)
    (limitPrice : Option ℚ) (currentPrice : ℚ) : OrderResult × DB :=
  match orderQuantity with
  | none => (OrderResult.missingInfo, db)
  | some q =>
    if selectedAgent = "" ∨ selectedSymbol = "" then
      (OrderResult.missingInfo, db)
    else
      let db1 : DB :=
        { db with
            orders := db.orders ++
              [{ agent_id := selectedAgent, symbol := selectedSymbol,
                 order_type := orderType, side := orderSide, quantity := q,
                 price := limitPrice, status := "filled" }] }
      let signedQty := signedQuantity orderSide q
      match findPosition db1.positions selectedAgent selectedSymbol with
      | some p =>
        (OrderResult.placed,
         { db1 with
             positions := replaceFirst db1.positions selectedAgent selectedSymbol
               (updatePositionExec p currentPrice signedQty) })
      | none =>
        (OrderResult.placed,
         { db1 with
             positions := db1.positions ++
               [newPositionExec selectedAgent selectedSymbol currentPrice signedQty] })

/-- A rebalance recommendation as produced by
`generateRebalanceRecommendations`. -/
structure RebalanceRecommendation where
  symbol : String
  currentAllocation : ℚ
  targetAllocation : ℚ
  recommendedAction : String
  quantity : ℚ
  reason : String
deriving DecidableEq, Repr

/-- `executeRebalance` from `PortfolioManagement`: insert one market order for
the recommendation with `status: "pending"`; no position is written. -/
def executeRebalance (selectedAgent : String) (rec : RebalanceRecommendation)
    (db : DB) : DB :=
  { db with
      orders := db.orders ++
        [{ agent_id := selectedAgent, symbol := rec.symbol,
           order_type := "market",
           side := if rec.recommendedAction = "buy" then Side.buy else Side.sell,
           quantity := rec.quantity, price := none, status := "pending" }] }

/-- One position update of the price-refresh endpoint
(`POST /api/portfolio/update-prices`):
`marketValue = position.quantity * currentPrice`;
`unrealizedPnL = (currentPrice - position.average_price) * position.quantity`;
the update writes `current_price`, `market_value`, `unrealized_pnl` and
`updated_at` only. -/
def refreshPosition (p : Position) (currentPrice : ℚ) : Position :=
  { p with
      current_price := some currentPrice
      market_value := some (p.quantity * currentPrice)
      unrealized_pnl := some ((currentPrice - p.average_price) * p.quantity) }

/-- One pass of the refresh endpoint's update loop for a market datum
`(symbol, close_price)`: refresh every position with that symbol and
`quantity ≠ 0`. -/
def refreshPass (ps : List Position) (m : String × ℚ) : List Position :=
  ps.map fun p =>
    if p.symbol == m.1 && p.quantity != 0 then refreshPosition p m.2 else p

/-- The refresh endpoint's update loop over all fetched market data. -/
def updatePortfolioPrices (positions : List Position)
    (market : List (String × ℚ)) : List Position :=
  market.foldl refreshPass positions

/-- The cached columns agree with what they are documented to cache:
`market_value = quantity × current_price` and
`unrealized_pnl = quantity × (current_price − average_price)` whenever
`current_price` is set. -/
def cachesConsistentB (p : Position) : Bool :=
  match p.current_price with
  | none => true
  | some cp =>
    (p.market_value == some (p.quantity * cp)) &&
    (p.unrealized_pnl == some (p.quantity * (cp - p.average_price)))

/-- JS `x || y` on a nullable number: `y` when `x` is null or `0`. -/
def jsNumOr (x : Option ℚ) (y : ℚ) : ℚ :=
  match x with
  | none => y
  | some v => if v = 0 then y else v

/-- Per-position market value in `fetchPortfolioMetrics`
(`LivePortfolioTracker`): `pos.market_value || pos.quantity * pos.average_price`. -/
def trackerMarketValue (p : Position) : ℚ :=
  jsNumOr p.market_value (p.quantity * p.average_price)

/-- Per-position current price in `fetchPortfolioMetrics`:
`pos.current_price || pos.average_price`. -/
def trackerCurrentPrice (p : Position) : ℚ :=
  jsNumOr p.current_price p.average_price

/-- `(pos.market_value || 0)` as used in the total-value and allocation
computations of `fetchPortfolioMetrics`. -/
def posMarketValueOrZero (p : Position) : ℚ :=
  match p.market_value with
  | none => 0
  | some v => v

/-- `totalValue = positions.reduce((sum, pos) => sum + (pos.market_value || 0), 0)`. -/
def totalValue (ps : List Position) : ℚ :=
  (ps.map posMarketValueOrZero).sum

/-- Per-position allocation in `fetchPortfolioMetrics`:
`totalValue > 0 ? ((pos.market_value || 0) / totalValue) * 100 : 0`. -/
def allocation (ps : List Position) (p : Position) : ℚ :=
  if 0 < totalValue ps then posMarketValueOrZero p / totalValue ps * 100 else 0

/-- The strategy object fields inspected or produced by the
strategy-generation endpoint. A JS-falsy (absent or empty) field is `none`.
The long `implementation` code string, `indicators` and `marketConditions`
arrays carry no control flow and are not modelled. -/
structure StrategyObject where
  name : Option String
  description : Option String
  entryRules : Option (List String)
  exitRules : Option (List String)
  maxPositionSize : ℚ
  stopLoss : ℚ
  takeProfit : ℚ
  maxPositionValueINR : ℚ
deriving DecidableEq, Repr

/-- The validation
`if (!strategy.name || !strategy.description || !strategy.entryRules || !strategy.exitRules) throw`. -/
def hasRequiredFields (s : StrategyObject) : Bool :=
  s.name.isSome && s.description.isSome && s.entryRules.isSome && s.exitRules.isSome

/-- The fixed fallback strategy template built in the `catch` branch of the
strategy-generation endpoint; its only parameters are `riskTolerance` and
`strategyType`. The JS `toFixed(1)` display formatting of the interpolated
stop-loss percentage is modelled by `toString` on the rational. -/
def fallbackStrategy (riskTolerance : ℚ) (strategyType : String) : StrategyObject :=
  { name := some ("Indian " ++ strategyType ++ " Trading Strategy")
    description := some ("A comprehensive " ++ strategyType ++
      " strategy designed for the Indian stock market, focusing on NSE-listed stocks like RELIANCE, TCS, and INFY. This strategy uses technical analysis combined with Indian market timing to identify optimal entry and exit points while managing risk through position sizing and stop-loss mechanisms.")
    entryRules := some
      [ "Enter long positions when " ++ strategyType ++
          " signals align with RSI below 40 on Indian blue-chip stocks",
        "Confirm entry with volume spike above 1.5x average daily volume during market hours (9:15 AM - 3:30 PM IST)",
        "Ensure market conditions favor the strategy type with proper risk-reward ratio of at least 1:2" ]
    exitRules := some
      [ "Exit positions when profit target of 3-5% is reached or before market close at 3:30 PM IST",
        "Apply stop-loss at " ++ toString ((100 - riskTolerance) / 1000 * 100) ++
          "% to limit downside risk",
        "Close all positions if overall portfolio drawdown exceeds risk tolerance limits" ]
    maxPositionSize := riskTolerance / 100 * (1 / 10)
    stopLoss := max (1 / 100) ((100 - riskTolerance) / 1000)
    takeProfit := max (2 / 100) (riskTolerance / 1000)
    maxPositionValueINR := riskTolerance * 2000 }

/-- The JSON response of the strategy-generation endpoint, projected to the
fields the claims are about. -/
structure StrategyResponse where
  success : Bool
  aiGenerated : StrategyObject
deriving DecidableEq, Repr

/-- The strategy-selection and response logic of the strategy-generation
endpoint. The language-model response is modelled by its parse outcome:
`none` when `JSON.parse` of the cleaned text throws, `some s` when it yields
`s`. A parse failure, or a parsed object missing a required field, falls into
the `catch` branch and uses the fallback template; the endpoint then returns
`success: true` either way (whether or not the database insert succeeds, a
saved-or-synthesised strategy is returned with `success: true`). -/
def generateStrategyResponse (parseOutcome : Option StrategyObject)
    (riskTolerance : ℚ) (strategyType : String) : StrategyResponse :=
  let strategy :=
    match parseOutcome with
    | none => fallbackStrategy riskTolerance strategyType
    | some s =>
      if hasRequiredFields s then s else fallbackStrategy riskTolerance strategyType
  { success := true, aiGenerated := strategy }

/-- C1: executing an order against an existing position with quantity `q0`
and average price `avg`, with signed order quantity `signedQuantity side q`
filled at price `fp`, updates the position to
`new_qty = q0 + signedQuantity side q` and to average price
`(avg×q0 + fp×signed)/new_qty` when `new_qty ≠ 0`, or to `0` when
`new_qty = 0`. -/
theorem executeOrder_updates_existing_position
    (a s : String) (ha : a ≠ "") (hs : s ≠ "")
    (q0 avg : ℚ) (cp0 mv pnl : Option ℚ) (ords : List Order)
    (q : ℚ) (ot : String) (side : Side) (lp : Option ℚ) (fp : ℚ) :
    (executeOrder (DB.mk ords [Position.mk a s q0 avg cp0 mv pnl])
        a s (some q) ot side lp fp).2.positions =
      [{ agent_id := a, symbol := s,
         quantity := q0 + signedQuantity side q,
         average_price :=
           if q0 + signedQuantity side q = 0 then 0
           else (avg * q0 + fp * signedQuantity side q) / (q0 + signedQuantity side q),
         current_price := some fp, market_value := mv, unrealized_pnl := pnl }] := by
  simp [executeOrder, ha, hs, findPosition, replaceFirst, updatePositionExec]

/-- Concrete instance of `executeOrder_updates_existing_position`. -/
theorem executeOrder_updates_existing_position_witness :
    (executeOrder (DB.mk [] [Position.mk "A" "S" 3 10 none none none])
        "A" "S" (some 2) "market" Side.buy none 20).2.positions =
      [{ agent_id := "A", symbol := "S",
         quantity := 3 + signedQuantity Side.buy 2,
         average_price :=
           if (3 : ℚ) + signedQuantity Side.buy 2 = 0 then 0
           else (10 * 3 + 20 * signedQuantity Side.buy 2) / (3 + signedQuantity Side.buy 2),
         current_price := some 20, market_value := none, unrealized_pnl := none }] :=
  executeOrder_updates_existing_position "A" "S" (by decide) (by decide)
    3 10 none none none [] 2 "market" Side.buy none 20

/-- C8: if agent, symbol or quantity is absent, `executeOrder` reports the
validation error and leaves the database unchanged (no order row, no
position write). -/
theorem executeOrder_missing_fields_no_write (db : DB) (a s : String)
    (oq : Option ℚ) (ot : String) (side : Side) (lp : Option ℚ) (fp : ℚ)
    (h : a = "" ∨ s = "" ∨ oq = none) :
    executeOrder db a s oq ot side lp fp = (OrderResult.missingInfo, db) := by
  match oq with
  | none => simp [executeOrder]
  | some q =>
    rcases h with h | h | h
    · simp [executeOrder, h]
    · simp [executeOrder, h]
    · exact absurd h (by simp)

/-- Concrete instance of `executeOrder_missing_fields_no_write`. -/
theorem executeOrder_missing_fields_no_write_witness :
    executeOrder (DB.mk [] []) "" "TCS" (some 5) "market" Side.buy none 700 =
      (OrderResult.missingInfo, DB.mk [] []) :=
  executeOrder_missing_fields_no_write (DB.mk [] []) "" "TCS" (some 5)
    "market" Side.buy none 700 (Or.inl rfl)

/-- C4: a buy of quantity `q` followed by a sell of quantity `q` in the same
symbol returns the position quantity to its pre-trade value `q0`, for every
starting quantity `q0` and any fill prices. -/
theorem buy_then_sell_restores_quantity
    (a s : String) (ha : a ≠ "") (hs : s ≠ "")
    (q0 avg : ℚ) (cp0 mv pnl : Option ℚ) (q p1 p2 : ℚ) :
    ((executeOrder
        (executeOrder (DB.mk [] [Position.mk a s q0 avg cp0 mv pnl])
          a s (some q) "market" Side.buy none p1).2
        a s (some q) "market" Side.sell none p2).2.positions.map Position.quantity)
      = [q0] := by
  simp [executeOrder, ha, hs, findPosition, replaceFirst, updatePositionExec,
    signedQuantity]

/-- Concrete instance of `buy_then_sell_restores_quantity`. -/
theorem buy_then_sell_restores_quantity_witness :
    ((executeOrder
        (executeOrder (DB.mk [] [Position.mk "A" "S" 7 10 none none none])
          "A" "S" (some 4) "market" Side.buy none 600).2
        "A" "S" (some 4) "market" Side.sell none 650).2.positions.map
          Position.quantity) = [7] :=
  buy_then_sell_restores_quantity "A" "S" (by decide) (by decide)
    7 10 none none none 4 600 650

/-- C3: starting from no position, two same-direction fills of quantities
`q1`, `q2` at prices `p1`, `p2` leave the average price equal to
`(p1·q1 + p2·q2)/(q1 + q2)`. -/
theorem two_fills_weighted_average
    (a s : String) (ha : a ≠ "") (hs : s ≠ "")
    (side : Side) (q1 q2 p1 p2 : ℚ) (h : q1 + q2 ≠ 0) :
    ((executeOrder
        (executeOrder (DB.mk [] []) a s (some q1) "market" side none p1).2
        a s (some q2) "market" side none p2).2.positions.map
          Position.average_price)
      = [(p1 * q1 + p2 * q2) / (q1 + q2)] := by
  cases side with
  | buy =>
    simp [executeOrder, ha, hs, findPosition, replaceFirst, updatePositionExec,
      newPositionExec, signedQuantity, h]
  | sell =>
    have h2 : -q1 + -q2 ≠ 0 := by
      intro hh
      exact h (by linarith)
    simp [executeOrder, ha, hs, findPosition, replaceFirst, updatePositionExec,
      newPositionExec, signedQuantity, h2]
    rw [div_eq_div_iff h2 h]
    ring

/-- Concrete instance of `two_fills_weighted_average`. -/
theorem two_fills_weighted_average_witness :
    ((executeOrder
        (executeOrder (DB.mk [] []) "A" "S" (some 10) "market" Side.buy none 600).2
        "A" "S" (some 30) "market" Side.buy none 700).2.positions.map
          Position.average_price)
      = [(600 * 10 + 700 * 30) / (10 + 30)] :=
  two_fills_weighted_average "A" "S" (by decide) (by decide)
    Side.buy 10 30 600 700 (by norm_num)

/-- C2 is violated by `executeOrder`: creating a position from an empty
database leaves `market_value` and `unrealized_pnl` NULL while
`current_price` is set, so the cached fields do not equal
`quantity × current_price` / `quantity × (current_price − average_price)`
after this position write. -/
theorem executeOrder_breaks_cache_invariant :
    ((executeOrder (DB.mk [] []) "A" "S" (some 1) "market" Side.buy
        none 600).2.positions.all cachesConsistentB) = false := by
  decide

/-- C2 amended: the price-refresh write does maintain the cached-field
equations, while `executeOrder`'s position update leaves the stale cached
`market_value` / `unrealized_pnl` untouched (it rewrites only quantity,
average price and current price). -/
theorem cache_fields_refresh_only (p : Position) (cp sq : ℚ) :
    cachesConsistentB (refreshPosition p cp) = true ∧
    (updatePositionExec p cp sq).market_value = p.market_value ∧
    (updatePositionExec p cp sq).unrealized_pnl = p.unrealized_pnl := by
  refine ⟨?_, rfl, rfl⟩
  simp only [cachesConsistentB, refreshPosition, Bool.and_eq_true, beq_iff_eq,
    Option.some.injEq]
  exact ⟨trivial, by ring⟩

/-- C5 is violated by the tracker's valuation: a position whose stored
`market_value` is NULL but whose `current_price` is set gets market value
`quantity × average_price`, not `quantity × current_price`. -/
theorem trackerMarketValue_ignores_current_price :
    (Position.mk "A" "S" 2 10 (some 25) none none).current_price = some 25 ∧
    trackerMarketValue (Position.mk "A" "S" 2 10 (some 25) none none) ≠
      (Position.mk "A" "S" 2 10 (some 25) none none).quantity * 25 := by
  refine ⟨rfl, ?_⟩
  norm_num [trackerMarketValue, jsNumOr]

/-- C5 amended: the refresh endpoint computes
`market_value = quantity × current_price`; the tracker's per-position market
value is the stored `market_value` when present and non-zero, and falls back
to `quantity × average_price` when the stored `market_value` is absent (or
zero) — the fallback is keyed on `market_value`, not on `current_price`. -/
theorem marketValue_valuation_amended :
    (∀ p cp, (refreshPosition p cp).market_value = some (p.quantity * cp)) ∧
    (∀ p mv, p.market_value = some mv → mv ≠ 0 → trackerMarketValue p = mv) ∧
    (∀ p, p.market_value = none →
      trackerMarketValue p = p.quantity * p.average_price) ∧
    (∀ p, p.market_value = some 0 →
      trackerMarketValue p = p.quantity * p.average_price) := by
  refine ⟨fun p cp => rfl, ?_, ?_, ?_⟩
  · intro p mv hmv hne
    simp [trackerMarketValue, jsNumOr, hmv, hne]
  · intro p hmv
    simp [trackerMarketValue, jsNumOr, hmv]
  · intro p hmv
    simp [trackerMarketValue, jsNumOr, hmv]

/-- Concrete instance of `marketValue_valuation_amended`. -/
theorem marketValue_valuation_amended_witness :
    trackerMarketValue (Position.mk "A" "S" 2 10 (some 25) (some 50) none) = 50 :=
  marketValue_valuation_amended.2.1
    (Position.mk "A" "S" 2 10 (some 25) (some 50) none) 50 rfl (by norm_num)

/-- C6 is violated when the total market value is negative (a net-short
book): the code then reports allocation `0`, while the claimed formula
`market_value / Σ market_value × 100` gives `100`. -/
theorem allocation_negative_total_diverges :
    allocation [Position.mk "A" "S" (-1) 100 (some 100) (some (-100)) none]
        (Position.mk "A" "S" (-1) 100 (some 100) (some (-100)) none) = 0 ∧
    posMarketValueOrZero
        (Position.mk "A" "S" (-1) 100 (some 100) (some (-100)) none) /
      totalValue [Position.mk "A" "S" (-1) 100 (some 100) (some (-100)) none] *
        100 = 100 ∧
    (0 : ℚ) ≠ 100 := by
  refine ⟨?_, ?_, by norm_num⟩
  · norm_num [allocation, totalValue, posMarketValueOrZero]
  · norm_num [totalValue, posMarketValueOrZero]

/-- Sum of a division-and-rescale over a list of rationals. -/
theorem sum_map_div_mul_hundred (l : List ℚ) (T : ℚ) :
    (l.map fun x => x / T * 100).sum = l.sum / T * 100 := by
  induction l with
  | nil => simp
  | cons x xs ih => simp [ih, add_div, add_mul]

/-- C6 amended: each computed allocation equals
`market_value / Σ market_value × 100` when the total is positive, and is `0`
whenever the total is `≤ 0` (not only when it is exactly `0`); when the total
is positive the allocations sum to exactly `100`. -/
theorem allocation_sums_amended (ps : List Position) :
    (∀ p, 0 < totalValue ps →
      allocation ps p = posMarketValueOrZero p / totalValue ps * 100) ∧
    (totalValue ps ≤ 0 → ∀ p, allocation ps p = 0) ∧
    (0 < totalValue ps → (ps.map (allocation ps)).sum = 100) := by
  refine ⟨fun p h => by simp [allocation, h], ?_, ?_⟩
  · intro h p
    have h' : ¬ 0 < totalValue ps := not_lt.mpr h
    simp [allocation, h']
  · intro h
    have hmap : ps.map (allocation ps) =
        (ps.map posMarketValueOrZero).map fun x => x / totalValue ps * 100 := by
      rw [List.map_map]
      refine List.map_congr_left ?_
      intro p _
      simp [allocation, h, Function.comp]
    rw [hmap, sum_map_div_mul_hundred, ← totalValue,
      div_self (ne_of_gt h), one_mul]

/-- Concrete instance of `allocation_sums_amended`. -/
theorem allocation_sums_amended_witness :
    ([Position.mk "A" "S" 1 10 (some 50) (some 50) none].map
      (allocation [Position.mk "A" "S" 1 10 (some 50) (some 50) none])).sum
      = 100 :=
  (allocation_sums_amended
    [Position.mk "A" "S" 1 10 (some 50) (some 50) none]).2.2
    (by norm_num [totalValue, posMarketValueOrZero])

/-- C7 is violated by `executeRebalance`: the rebalance order row is created
with status `"pending"`, not `"filled"`. -/
theorem executeRebalance_creates_pending_order :
    ((executeRebalance "A"
        (RebalanceRecommendation.mk "RELIANCE" 25 20 "sell" 50 "Overweight")
        (DB.mk [] [])).orders.map Order.status) = ["pending"] ∧
    "pending" ≠ "filled" := by
  exact ⟨rfl, by decide⟩

/-- C7 amended: `executeOrder` creates its order row immediately marked
`"filled"`, while the rebalance path `executeRebalance` creates its order row
with status `"pending"`. -/
theorem order_creation_status
    (db : DB) (a s : String) (ha : a ≠ "") (hs : s ≠ "") (q : ℚ)
    (ot : String) (side : Side) (lp : Option ℚ) (fp : ℚ)
    (rec : RebalanceRecommendation) :
    (executeOrder db a s (some q) ot side lp fp).2.orders =
      db.orders ++
        [{ agent_id := a, symbol := s, order_type := ot, side := side,
           quantity := q, price := lp, status := "filled" }] ∧
    (executeRebalance a rec db).orders =
      db.orders ++
        [{ agent_id := a, symbol := rec.symbol, order_type := "market",
           side := if rec.recommendedAction = "buy" then Side.buy else Side.sell,
           quantity := rec.quantity, price := none, status := "pending" }] := by
  refine ⟨?_, rfl⟩
  simp only [executeOrder, ha, hs, or_self, if_neg, if_false]
  cases hfind : findPosition
      (db.positions) a s <;>
    simp [executeOrder, ha, hs, findPosition, hfind]

/-- Concrete instance of `order_creation_status`. -/
theorem order_creation_status_witness :
    (executeOrder (DB.mk [] []) "A" "S" (some 5) "market" Side.buy
        none 700).2.orders =
      [] ++
        [{ agent_id := "A", symbol := "S", order_type := "market",
           side := Side.buy, quantity := 5, price := none,
           status := "filled" }] :=
  (order_creation_status (DB.mk [] []) "A" "S" (by decide) (by decide) 5
    "market" Side.buy none 700
    (RebalanceRecommendation.mk "TCS" 15 18 "buy" 25 "Underweight")).1

/-- C9: a language-model response that fails to parse as JSON, or parses but
lacks a required field, makes the endpoint substitute the fixed template
(parameterised only by the risk tolerance and strategy type) and still return
a success result. -/
theorem strategy_fallback_on_bad_parse
    (outcome : Option StrategyObject) (rt : ℚ) (st : String)
    (h : outcome = none ∨
      ∃ s, outcome = some s ∧ hasRequiredFields s = false) :
    generateStrategyResponse outcome rt st =
      { success := true, aiGenerated := fallbackStrategy rt st } := by
  rcases h with h | ⟨s, hs, hf⟩
  · subst h
    rfl
  · subst hs
    simp [generateStrategyResponse, hf]

/-- Concrete instance of `strategy_fallback_on_bad_parse`. -/
theorem strategy_fallback_on_bad_parse_witness :
    generateStrategyResponse none 50 "momentum" =
      { success := true, aiGenerated := fallbackStrategy 50 "momentum" } :=
  strategy_fallback_on_bad_parse none 50 "momentum" (Or.inl rfl)

/-- The identity-and-cost fields of a position row that the price refresh
must not touch. -/
def posFrame (p : Position) : String × String × ℚ × ℚ :=
  (p.agent_id, p.symbol, p.quantity, p.average_price)

/-- One refresh pass leaves agent, symbol, quantity and average price of
every row unchanged. -/
theorem refreshPass_frame (ps : List Position) (m : String × ℚ) :
    (refreshPass ps m).map posFrame = ps.map posFrame := by
  induction ps with
  | nil => rfl
  | cons p rest ih =>
    have hstep : posFrame
        (if p.symbol == m.1 && p.quantity != 0 then refreshPosition p m.2 else p)
        = posFrame p := by
      by_cases hp : (p.symbol == m.1 && p.quantity != 0) = true
      · rw [if_pos hp]
        rfl
      · rw [if_neg hp]
    show posFrame
        (if p.symbol == m.1 && p.quantity != 0 then refreshPosition p m.2 else p)
        :: (refreshPass rest m).map posFrame = posFrame p :: rest.map posFrame
    rw [hstep, ih]

/-- C10: the price-refresh operation writes only the price-derived columns:
for every position row, `quantity`, `average_price`, `symbol` and `agent_id`
are unchanged by `updatePortfolioPrices`. -/
theorem updatePortfolioPrices_frame (positions : List Position)
    (market : List (String × ℚ)) :
    (updatePortfolioPrices positions market).map posFrame =
      positions.map posFrame := by
  induction market generalizing positions with
  | nil => rfl
  | cons m rest ih =>
    rw [updatePortfolioPrices, List.foldl_cons]
    exact (ih (refreshPass positions m)).trans (refreshPass_frame positions m)
